import Mathlib

/-!
Shallow embedding of the `water` repository (a wgpu renderer drawing one
textured, depth-tested quad) and proofs about its specification claims.

The embedding translates the data and control content of `src/lib.rs`,
`src/camera.rs` and `src/vertex.rs` into pure Lean definitions:

* machine floats (`f32`) carrying configuration constants are modelled as `ℚ`
  where the program only stores and compares them, and as `ℝ` where real
  analysis (trigonometry, square roots) enters through the matrix math;
* GPU handles (window, surface, device, queue, bind groups) carry no data of
  their own and are dropped; the data they are configured with (surface
  configuration, texture descriptors, pipeline descriptors, buffer contents)
  is kept in full;
* fallible operations (`expect`, `unwrap`) are modelled with `Except`: the
  error branch stands for the panic, carrying the panic message;
* the external image decoder (spec section 1 treats decoding as a black box
  `decode(bytes) -> (width, height, RGBA pixels)`) is a function parameter
  `List Nat → Option DecodedImage`.
-/

namespace Water

/-! ## Basic wgpu value types -/

/-- Texture formats the program mentions: the sRGB color format used for the
loaded image, a representative negotiated surface format, and the depth
format (`Texture::DEPTH_FORMAT = Depth32Float`, `lib.rs` line 574). -/
inductive TextureFormat
  | Rgba8UnormSrgb
  | Bgra8UnormSrgb
  | Rgba8Unorm
  | Depth32Float
deriving DecidableEq

/-- Presentation modes (`wgpu::PresentMode`); the program uses whichever mode
the surface capabilities list first (`lib.rs` line 123). -/
inductive PresentMode
  | AutoVsync
  | AutoNoVsync
  | Fifo
  | FifoRelaxed
  | Immediate
  | Mailbox
deriving DecidableEq

/-- Alpha compositing modes (`wgpu::CompositeAlphaMode`); the program uses
whichever the capabilities list first (`lib.rs` line 124). -/
inductive CompositeAlphaMode
  | Auto
  | OpaqueAlpha
  | PreMultiplied
  | PostMultiplied
  | Inherit
deriving DecidableEq

/-- Bits of `wgpu::TextureUsages`, as in wgpu-types. -/
def TextureUsages.COPY_SRC : Nat := 1
def TextureUsages.COPY_DST : Nat := 2
def TextureUsages.TEXTURE_BINDING : Nat := 4
def TextureUsages.STORAGE_BINDING : Nat := 8
def TextureUsages.RENDER_ATTACHMENT : Nat := 16

/-- The render-surface configuration (`wgpu::SurfaceConfiguration`), built at
`lib.rs` lines 118-127 and mutated in place by `State::resize`. -/
structure SurfaceConfiguration where
  usage : Nat
  format : TextureFormat
  width : Nat
  height : Nat
  present_mode : PresentMode
  alpha_mode : CompositeAlphaMode
  desired_maximum_frame_latency : Nat
deriving DecidableEq

/-- `winit::dpi::PhysicalSize<u32>`. -/
structure PhysicalSize where
  width : Nat
  height : Nat
deriving DecidableEq

/-- `const WINDOW_SIZE: PhysicalSize<u32>`, `lib.rs` line 20. -/
def WINDOW_SIZE : PhysicalSize := { width := 1280, height := 720 }

/-! ## Sampler and texture descriptors -/

/-- `wgpu::AddressMode`. -/
inductive AddressMode
  | ClampToEdge
  | Repeat
  | MirrorRepeat
deriving DecidableEq

/-- `wgpu::FilterMode`. -/
inductive FilterMode
  | Nearest
  | Linear
deriving DecidableEq

/-- `wgpu::CompareFunction`. -/
inductive CompareFunction
  | Never
  | Less
  | Equal
  | LessEqual
  | Greater
  | NotEqual
  | GreaterEqual
  | Always
deriving DecidableEq

/-- The fields of `wgpu::SamplerDescriptor` the program sets. -/
structure SamplerDescriptor where
  address_mode_u : AddressMode
  address_mode_v : AddressMode
  address_mode_w : AddressMode
  mag_filter : FilterMode
  min_filter : FilterMode
  mipmap_filter : FilterMode
  compare : Option CompareFunction
deriving DecidableEq

/-- `wgpu::Extent3d`. -/
structure Extent3d where
  width : Nat
  height : Nat
  depth_or_array_layers : Nat
deriving DecidableEq

/-- The `Texture` resource (`lib.rs` lines 418-422): the descriptor data of
the GPU image (size, mips, samples, format, usage) together with the sampler
state. The live GPU handles and the default-descriptor view carry no further
data at this level. -/
structure Texture where
  size : Extent3d
  mip_level_count : Nat
  sample_count : Nat
  format : TextureFormat
  usage : Nat
  sampler : SamplerDescriptor
deriving DecidableEq

/-- `Texture::DEPTH_FORMAT`, `lib.rs` line 574. -/
def Texture.DEPTH_FORMAT : TextureFormat := TextureFormat.Depth32Float

/-- The decoded image handed over by the external image decoder, which the
spec treats as a black box producing dimensions and RGBA pixels. Only the
dimensions flow into the texture descriptor (`lib.rs` lines 442-448). -/
structure DecodedImage where
  width : Nat
  height : Nat
deriving DecidableEq

/-- `Texture::from_image` (`lib.rs` lines 436-494): creates a 2D
`Rgba8UnormSrgb` image of exactly the decoded dimensions, one mip level, one
sample, with a clamp/linear-mag/nearest-min sampler, and uploads the pixels. -/
def Texture.from_image (image : DecodedImage) : Texture :=
  { size := { width := image.width, height := image.height, depth_or_array_layers := 1 }
    mip_level_count := 1
    sample_count := 1
    format := TextureFormat.Rgba8UnormSrgb
    usage := TextureUsages.TEXTURE_BINDING + TextureUsages.COPY_DST
    sampler :=
      { address_mode_u := AddressMode.ClampToEdge
        address_mode_v := AddressMode.ClampToEdge
        address_mode_w := AddressMode.ClampToEdge
        mag_filter := FilterMode.Linear
        min_filter := FilterMode.Nearest
        mipmap_filter := FilterMode.Nearest
        compare := none } }

/-- `Texture::from_bytes` (`lib.rs` lines 425-434): runs the external decoder
on the raw bytes and panics (modelled as `Except.error` with the panic
message) when decoding fails; otherwise builds the texture via `from_image`.
`decode` is the external decoder, a parameter of the embedding. -/
def Texture.from_bytes (decode : List Nat → Option DecodedImage)
    (bytes : List Nat) : Except String Texture :=
  match decode bytes with
  | some image => Except.ok (Texture.from_image image)
  | none => Except.error "Failed to load image from memory"

/-- `Texture::create_depth_texture` (`lib.rs` lines 535-572): a depth-format
image sized exactly to the surface configuration, one mip, one sample, with a
comparison sampler (LessEqual, linear mag and min filters). -/
def Texture.create_depth_texture (config : SurfaceConfiguration) : Texture :=
  { size := { width := config.width, height := config.height, depth_or_array_layers := 1 }
    mip_level_count := 1
    sample_count := 1
    format := Texture.DEPTH_FORMAT
    usage := TextureUsages.RENDER_ATTACHMENT + TextureUsages.TEXTURE_BINDING
    sampler :=
      { address_mode_u := AddressMode.ClampToEdge
        address_mode_v := AddressMode.ClampToEdge
        address_mode_w := AddressMode.ClampToEdge
        mag_filter := FilterMode.Linear
        min_filter := FilterMode.Linear
        mipmap_filter := FilterMode.Nearest
        compare := some CompareFunction.LessEqual } }

/-! ## Camera and projection math (`camera.rs`, `lib.rs` lines 577-603) -/

/-- Homogeneous 4x4 matrices over the reals, modelling `na::Matrix4<f32>`. -/
abbrev Matrix4 := Matrix (Fin 4) (Fin 4) ℝ

/-- `OPENGL_TO_WGPU_MATRIX` (`lib.rs` lines 577-583, `camera.rs` lines 8-14):
the constant clip-range conversion matrix. -/
def OPENGL_TO_WGPU_MATRIX : Matrix4 :=
  Matrix.of ![
    ![1, 0, 0, 0],
    ![0, 1, 0, 0],
    ![0, 0, 0.5, 0.5],
    ![0, 0, 0, 1]]

/-- The matrix `na::Matrix4::new_perspective(aspect, fovy, znear, zfar)`
builds (nalgebra, `Perspective3::new`): the standard right-handed OpenGL
perspective matrix with depth range [-1, 1], with `fovy` in radians. -/
noncomputable def new_perspective (aspect fovy znear zfar : ℝ) : Matrix4 :=
  Matrix.of ![
    ![1 / (aspect * Real.tan (fovy / 2)), 0, 0, 0],
    ![0, 1 / Real.tan (fovy / 2), 0, 0],
    ![0, 0, (zfar + znear) / (znear - zfar), 2 * zfar * znear / (znear - zfar)],
    ![0, 0, -1, 0]]

/-- Three-component real vectors for the camera pose. -/
structure Vec3 where
  x : ℝ
  y : ℝ
  z : ℝ

def Vec3.sub (a b : Vec3) : Vec3 := { x := a.x - b.x, y := a.y - b.y, z := a.z - b.z }

def Vec3.dot (a b : Vec3) : ℝ := a.x * b.x + a.y * b.y + a.z * b.z

def Vec3.cross (a b : Vec3) : Vec3 :=
  { x := a.y * b.z - a.z * b.y
    y := a.z * b.x - a.x * b.z
    z := a.x * b.y - a.y * b.x }

noncomputable def Vec3.normalize (a : Vec3) : Vec3 :=
  { x := a.x / Real.sqrt (a.dot a)
    y := a.y / Real.sqrt (a.dot a)
    z := a.z / Real.sqrt (a.dot a) }

/-- The `Camera` (`lib.rs` lines 587-588): the source wraps the rigid
transform `na::Isometry3::look_at_rh(eye, target, up)`; the embedding keeps
the isometry as the pose it is constructed from, and derives the homogeneous
view matrix (`camera.0.to_matrix()`) from that pose below. -/
structure Camera where
  eye : Vec3
  target : Vec3
  up : Vec3

/-- The homogeneous matrix of `na::Isometry3::look_at_rh(eye, target, up)`:
the right-handed view transform taking world coordinates to eye coordinates. -/
noncomputable def look_at_rh (eye target up : Vec3) : Matrix4 :=
  let f := (target.sub eye).normalize
  let s := (f.cross up).normalize
  let u := s.cross f
  Matrix.of ![
    ![s.x, s.y, s.z, -(s.dot eye)],
    ![u.x, u.y, u.z, -(u.dot eye)],
    ![-f.x, -f.y, -f.z, f.dot eye],
    ![0, 0, 0, 1]]

/-- `camera.0.to_matrix()`: the homogeneous matrix of the stored isometry. -/
noncomputable def Camera.to_matrix (c : Camera) : Matrix4 :=
  look_at_rh c.eye c.target c.up

/-- `Projection` (`lib.rs` lines 590-597): four scalar fields. The `f32`
fields are modelled as `ℚ` (the program only stores them; they enter real
arithmetic through `to_matrix`). -/
structure Projection where
  aspect : ℚ
  fovy : ℚ
  z_near : ℚ
  z_far : ℚ
deriving DecidableEq

/-- `Projection::to_matrix` (`lib.rs` lines 599-603): the clip-range
conversion matrix left-multiplied onto the perspective matrix built from the
four fields. -/
noncomputable def Projection.to_matrix (p : Projection) : Matrix4 :=
  OPENGL_TO_WGPU_MATRIX *
    new_perspective (p.aspect : ℝ) (p.fovy : ℝ) (p.z_near : ℝ) (p.z_far : ℝ)

/-! ## Vertex data (`lib.rs` lines 348-384) -/

/-- `wgpu::VertexFormat` (the formats the program uses). -/
inductive VertexFormat
  | Float32x2
  | Float32x3
deriving DecidableEq

/-- `wgpu::VertexStepMode`. -/
inductive VertexStepMode
  | Vertex
  | Instance
deriving DecidableEq

/-- `wgpu::VertexAttribute`. -/
structure VertexAttribute where
  format : VertexFormat
  offset : Nat
  shader_location : Nat
deriving DecidableEq

/-- `wgpu::VertexBufferLayout`. -/
structure VertexBufferLayout where
  array_stride : Nat
  step_mode : VertexStepMode
  attributes : List VertexAttribute
deriving DecidableEq

/-- `TextureVertex` (`lib.rs` lines 348-353): a 3D position and 2D texture
coordinates; the `f32` components are modelled as `ℚ`. -/
structure TextureVertex where
  pos : ℚ × ℚ × ℚ
  tex_coords : ℚ × ℚ
deriving DecidableEq

/-- `TextureVertex::LAYOUT` (`lib.rs` lines 356-371): stride 20 bytes
(five `f32`), position at offset 0, texture coordinates at offset 12. -/
def TextureVertex.LAYOUT : VertexBufferLayout :=
  { array_stride := 20
    step_mode := VertexStepMode.Vertex
    attributes :=
      [ { format := VertexFormat.Float32x3, offset := 0, shader_location := 0 }
      , { format := VertexFormat.Float32x2, offset := 12, shader_location := 1 } ] }

/-- `TextureVertex::RECT_VERTICES` (`lib.rs` lines 373-378). -/
def TextureVertex.RECT_VERTICES : List TextureVertex :=
  [ { pos := (0.5, 0.5, 0.0), tex_coords := (1.0, 0.0) }
  , { pos := (-0.5, 0.5, 0.0), tex_coords := (0.0, 0.0) }
  , { pos := (-0.5, -0.5, 0.0), tex_coords := (0.0, 1.0) }
  , { pos := (0.5, -0.5, 0.0), tex_coords := (1.0, 1.0) } ]

/-- `TextureVertex::RECT_INDICES` (`lib.rs` lines 380-383): `u16` index
values, modelled as `Nat` (each is far below 2^16). -/
def TextureVertex.RECT_INDICES : List Nat := [0, 1, 2, 0, 2, 3]

/-! ## Pipeline state (`lib.rs` lines 195-246) -/

/-- `wgpu::PrimitiveTopology`. -/
inductive PrimitiveTopology
  | PointList
  | LineList
  | LineStrip
  | TriangleList
  | TriangleStrip
deriving DecidableEq

/-- `wgpu::IndexFormat`. -/
inductive IndexFormat
  | Uint16
  | Uint32
deriving DecidableEq

/-- `wgpu::FrontFace`. -/
inductive FrontFace
  | Ccw
  | Cw
deriving DecidableEq

/-- `wgpu::Face`. -/
inductive Face
  | Front
  | Back
deriving DecidableEq

/-- `wgpu::PolygonMode`. -/
inductive PolygonMode
  | Fill
  | Line
  | Point
deriving DecidableEq

/-- `wgpu::PrimitiveState`. -/
structure PrimitiveState where
  topology : PrimitiveTopology
  strip_index_format : Option IndexFormat
  front_face : FrontFace
  cull_mode : Option Face
  unclipped_depth : Bool
  polygon_mode : PolygonMode
  conservative : Bool
deriving DecidableEq

/-- `wgpu::BlendFactor` (the factors REPLACE uses). -/
inductive BlendFactor
  | Zero
  | One
  | Src
  | OneMinusSrc
  | SrcAlpha
  | OneMinusSrcAlpha
  | Dst
  | OneMinusDst
  | DstAlpha
  | OneMinusDstAlpha
deriving DecidableEq

/-- `wgpu::BlendOperation`. -/
inductive BlendOperation
  | Add
  | Subtract
  | ReverseSubtract
  | Min
  | Max
deriving DecidableEq

/-- `wgpu::BlendComponent`. -/
structure BlendComponent where
  src_factor : BlendFactor
  dst_factor : BlendFactor
  operation : BlendOperation
deriving DecidableEq

/-- `wgpu::BlendComponent::REPLACE`: source replaces destination. -/
def BlendComponent.REPLACE : BlendComponent :=
  { src_factor := BlendFactor.One
    dst_factor := BlendFactor.Zero
    operation := BlendOperation.Add }

/-- `wgpu::BlendState`. -/
structure BlendState where
  color : BlendComponent
  alpha : BlendComponent
deriving DecidableEq

/-- `wgpu::BlendState::REPLACE`: opaque replace blending, no alpha blending. -/
def BlendState.REPLACE : BlendState :=
  { color := BlendComponent.REPLACE, alpha := BlendComponent.REPLACE }

/-- Bits of `wgpu::ColorWrites`; `ALL` writes every channel. -/
def ColorWrites.ALL : Nat := 15

/-- `wgpu::ColorTargetState`. -/
structure ColorTargetState where
  format : TextureFormat
  blend : Option BlendState
  write_mask : Nat
deriving DecidableEq

/-- `wgpu::StencilOperation`. -/
inductive StencilOperation
  | Keep
  | Zero
  | Replace
  | Invert
  | IncrementClamp
  | DecrementClamp
  | IncrementWrap
  | DecrementWrap
deriving DecidableEq

/-- `wgpu::StencilFaceState`. -/
structure StencilFaceState where
  compare : CompareFunction
  fail_op : StencilOperation
  depth_fail_op : StencilOperation
  pass_op : StencilOperation
deriving DecidableEq

/-- `wgpu::StencilFaceState::IGNORE`: compare Always, all operations Keep. -/
def StencilFaceState.IGNORE : StencilFaceState :=
  { compare := CompareFunction.Always
    fail_op := StencilOperation.Keep
    depth_fail_op := StencilOperation.Keep
    pass_op := StencilOperation.Keep }

/-- `wgpu::StencilState`. -/
structure StencilState where
  front : StencilFaceState
  back : StencilFaceState
  read_mask : Nat
  write_mask : Nat
deriving DecidableEq

/-- `wgpu::StencilState::default()`: ignore faces, zero masks — the no-op
stencil state. -/
def StencilState.defaultState : StencilState :=
  { front := StencilFaceState.IGNORE
    back := StencilFaceState.IGNORE
    read_mask := 0
    write_mask := 0 }

/-- `wgpu::DepthBiasState` (`default()` is all zeros). -/
structure DepthBiasState where
  constant : Int
  slope_scale : ℚ
  clamp : ℚ
deriving DecidableEq

def DepthBiasState.defaultState : DepthBiasState :=
  { constant := 0, slope_scale := 0, clamp := 0 }

/-- `wgpu::DepthStencilState`. -/
structure DepthStencilState where
  format : TextureFormat
  depth_write_enabled : Bool
  depth_compare : CompareFunction
  stencil : StencilState
  bias : DepthBiasState
deriving DecidableEq

/-- `wgpu::MultisampleState`. -/
structure MultisampleState where
  count : Nat
  mask : Nat
  alpha_to_coverage_enabled : Bool
deriving DecidableEq

/-- The render-pipeline descriptor data of `device.create_render_pipeline`
(`lib.rs` lines 204-246): the vertex buffer layouts, the fragment color
targets, and the fixed-function state. Shader module internals are outside
the embedding; both stages come from the one module with entry points
`vs_main` and `fs_main`. -/
structure RenderPipelineDescriptor where
  vertex_buffers : List VertexBufferLayout
  fragment_targets : List (Option ColorTargetState)
  primitive : PrimitiveState
  multisample : MultisampleState
  depth_stencil : Option DepthStencilState
deriving DecidableEq

/-- The pipeline `State::new` builds (`lib.rs` lines 204-246), as a function
of the negotiated surface color format. -/
def create_render_pipeline (format : TextureFormat) : RenderPipelineDescriptor :=
  { vertex_buffers := [TextureVertex.LAYOUT]
    fragment_targets :=
      [ some { format := format
               blend := some BlendState.REPLACE
               write_mask := ColorWrites.ALL } ]
    primitive :=
      { topology := PrimitiveTopology.TriangleList
        strip_index_format := none
        front_face := FrontFace.Ccw
        cull_mode := some Face.Back
        unclipped_depth := false
        polygon_mode := PolygonMode.Fill
        conservative := false }
    multisample :=
      { count := 1
        mask := 2 ^ 64 - 1
        alpha_to_coverage_enabled := false }
    depth_stencil :=
      some { format := Texture.DEPTH_FORMAT
             depth_write_enabled := true
             depth_compare := CompareFunction.Less
             stencil := StencilState.defaultState
             bias := DepthBiasState.defaultState } }

/-! ## The State aggregate and its operations (`lib.rs` lines 69-314) -/

/-- The `State` struct (`lib.rs` lines 69-85). The window, surface, device,
queue and bind-group handles carry no data beyond the resources they are
built from; every data-carrying field is kept: the surface configuration,
the pipeline, the buffer contents, the texture resource bound at group 0,
the projection and the contents of its uniform buffer, the camera, and the
depth texture. -/
structure State where
  config : SurfaceConfiguration
  pipeline : RenderPipelineDescriptor
  vertex_buffer : List TextureVertex
  index_buffer : List Nat
  index_count : Nat
  texture_bind_group : Texture
  projection : Projection
  projection_buffer : Matrix4
  camera : Camera
  depth_texture : Texture

/-- `State::new` (`lib.rs` lines 88-265). The adapter negotiation yields the
surface format and the first supported present and alpha modes, which are
parameters here; `trollface` is the decoded embedded image (the PNG decodes
successfully at startup). The window is created with `WINDOW_SIZE`, so
`window.inner_size()` is `WINDOW_SIZE`. -/
noncomputable def State.new (format : TextureFormat) (present_mode : PresentMode)
    (alpha_mode : CompositeAlphaMode) (trollface : DecodedImage) : State :=
  let size := WINDOW_SIZE
  let config : SurfaceConfiguration :=
    { usage := TextureUsages.RENDER_ATTACHMENT
      format := format
      width := size.width
      height := size.height
      present_mode := present_mode
      alpha_mode := alpha_mode
      desired_maximum_frame_latency := 2 }
  let depth_texture := Texture.create_depth_texture config
  let camera : Camera :=
    { eye := { x := 0, y := 1, z := 2 }
      target := { x := 0, y := 0, z := 0 }
      up := { x := 0, y := 1, z := 0 } }
  let projection : Projection :=
    { aspect := (WINDOW_SIZE.width : ℚ) / (WINDOW_SIZE.height : ℚ)
      fovy := 45.0
      z_near := 0.1
      z_far := 100.0 }
  let mvp := projection.to_matrix * camera.to_matrix
  { config := config
    pipeline := create_render_pipeline format
    vertex_buffer := TextureVertex.RECT_VERTICES
    index_buffer := TextureVertex.RECT_INDICES
    index_count := 6
    texture_bind_group := Texture.from_image trollface
    projection := projection
    projection_buffer := mvp
    camera := camera
    depth_texture := depth_texture }

/-- `State::resize` (`lib.rs` lines 267-271): writes the new width and height
into the surface configuration and reconfigures the surface from it. No
other field of `State` is touched. -/
def State.resize (s : State) (size : PhysicalSize) : State :=
  { s with config := { s.config with width := size.width, height := size.height } }

/-- The outcome of `surface.get_current_texture()` when it fails
(`wgpu::SurfaceError`). -/
inductive SurfaceError
  | Timeout
  | Outdated
  | Lost
  | OutOfMemory
  | Other
deriving DecidableEq

/-- What one run of the render pass records (`lib.rs` lines 278-304):
the clear values, the sizes of the attached views, and the indexed draw. -/
structure RenderPassRecord where
  clear_color : ℚ × ℚ × ℚ × ℚ
  depth_clear : ℚ
  depth_view_size : Extent3d
  color_view_size : Nat × Nat
  indexed_draw : Nat × Nat
  index_format : IndexFormat
deriving DecidableEq

/-- The observable outcome of one `State::redraw` call. `panicked` models the
`unwrap` on `get_current_texture` aborting the process; when it is set,
nothing was submitted or presented. -/
structure FrameOutcome where
  requested_redraw : Bool
  panicked : Bool
  submitted : Nat
  presented : Bool
  render_pass : Option RenderPassRecord
  state : State

/-- `State::redraw` (`lib.rs` lines 273-309) as a function of the result of
`surface.get_current_texture()`. The code first requests the next redraw,
then unwraps the acquired image — panicking on any surface error, with no
retry and no fallback — and otherwise records one render pass (clear color
(0.1, 0.2, 0.3, 1.0), depth clear 1.0, the stored depth-texture view, one
indexed draw over `0..index_count` with `Uint16` indices), submits the one
command buffer and presents. No field of `State` is mutated. -/
def State.redraw (s : State) (acquired : Except SurfaceError Unit) : FrameOutcome :=
  match acquired with
  | Except.error _ =>
    { requested_redraw := true
      panicked := true
      submitted := 0
      presented := false
      render_pass := none
      state := s }
  | Except.ok _ =>
    { requested_redraw := true
      panicked := false
      submitted := 1
      presented := true
      render_pass := some
        { clear_color := (0.1, 0.2, 0.3, 1.0)
          depth_clear := 1.0
          depth_view_size := s.depth_texture.size
          color_view_size := (s.config.width, s.config.height)
          indexed_draw := (0, s.index_count)
          index_format := IndexFormat.Uint16 }
      state := s }

/-- A startup state at concrete negotiated parameters, used by the concrete
scenario theorems: an sRGB BGRA surface, Fifo presentation, automatic alpha,
and a 256x256 decoded embedded image. -/
noncomputable def startupState : State :=
  State.new TextureFormat.Bgra8UnormSrgb PresentMode.Fifo CompositeAlphaMode.Auto
    { width := 256, height := 256 }

/-! ## Plane geometry of the quad, for the coverage claim -/

/-- The xy-position of a vertex (the quad lies in the plane z = 0). -/
def TextureVertex.xy (v : TextureVertex) : ℚ × ℚ := (v.pos.1, v.pos.2.1)

/-- The xy-position of the quad vertex at a given index of the vertex list. -/
def quadVertex (i : Nat) : ℚ × ℚ :=
  (TextureVertex.RECT_VERTICES.getD i
    { pos := (0, 0, 0), tex_coords := (0, 0) }).xy

/-- The three corner positions of triangle `k` of the indexed triangle list:
vertices at indices `RECT_INDICES[3k]`, `RECT_INDICES[3k+1]`,
`RECT_INDICES[3k+2]`. -/
def triangleCorners (k : Nat) : (ℚ × ℚ) × (ℚ × ℚ) × (ℚ × ℚ) :=
  ( quadVertex (TextureVertex.RECT_INDICES.getD (3 * k) 0)
  , quadVertex (TextureVertex.RECT_INDICES.getD (3 * k + 1) 0)
  , quadVertex (TextureVertex.RECT_INDICES.getD (3 * k + 2) 0) )

/-- Twice the signed area spanned by `b - a` and `c - a`: positive exactly
for counter-clockwise corner order. -/
def cross2 (a b c : ℚ × ℚ) : ℚ :=
  (b.1 - a.1) * (c.2 - a.2) - (b.2 - a.2) * (c.1 - a.1)

/-- Membership in the closed triangle `a b c` (counter-clockwise corners):
the point lies on the inner side of each directed edge. -/
def inTriangle (a b c p : ℚ × ℚ) : Prop :=
  0 ≤ cross2 a b p ∧ 0 ≤ cross2 b c p ∧ 0 ≤ cross2 c a p

/-- Membership in the open interior of the triangle `a b c`. -/
def inTriangleInterior (a b c p : ℚ × ℚ) : Prop :=
  0 < cross2 a b p ∧ 0 < cross2 b c p ∧ 0 < cross2 c a p

/-- The closed quad [-0.5, 0.5] x [-0.5, 0.5] the four vertices span. -/
def inQuad (p : ℚ × ℚ) : Prop :=
  -(1/2) ≤ p.1 ∧ p.1 ≤ 1/2 ∧ -(1/2) ≤ p.2 ∧ p.2 ≤ 1/2

/-! ## The claims -/

/-- C1: the claim states that after any resize(w, h) the depth texture has
dimensions (w, h) and that no redraw is issued while depth and surface
dimensions differ. The code violates it: `State::resize` never rebuilds the
depth texture, so after resize(640, 480) from the 1280x720 startup state the
surface configuration is 640x480 while the depth texture stays 1280x720, and
the next redraw still records and submits a render pass binding the stale
1280x720 depth view. -/
theorem C1_resize_leaves_depth_texture_stale :
    (startupState.resize { width := 640, height := 480 }).config.width = 640 ∧
    (startupState.resize { width := 640, height := 480 }).config.height = 480 ∧
    (startupState.resize { width := 640, height := 480 }).depth_texture.size.width = 1280 ∧
    (startupState.resize { width := 640, height := 480 }).depth_texture.size.height = 720 ∧
    ((startupState.resize { width := 640, height := 480 }).redraw (Except.ok ())).submitted = 1 ∧
    (((startupState.resize { width := 640, height := 480 }).redraw (Except.ok ())).render_pass.map
        fun pr => pr.depth_view_size) =
      some { width := 1280, height := 720, depth_or_array_layers := 1 } :=
  ⟨rfl, rfl, rfl, rfl, rfl, rfl⟩

/-- C2: the claim states that after resize(w, h) the stored aspect equals
w / h. The code violates it: `State::resize` never touches the projection,
so after resize(640, 480) the aspect is still the startup value 1280 / 720,
not 640 / 480. The startup value itself is within 1e-4 of 1.7778, so the
claim holds only at the startup size. -/
theorem C2_resize_leaves_aspect_stale :
    (startupState.resize { width := 640, height := 480 }).projection.aspect = 1280 / 720 ∧
    (1280 / 720 : ℚ) ≠ 640 / 480 ∧
    startupState.projection.aspect = 1280 / 720 ∧
    |(1280 / 720 : ℚ) - 1.7778| < 1 / 10000 := by
  refine ⟨?_, by norm_num, ?_, ?_⟩
  · norm_num [State.resize, startupState, State.new, WINDOW_SIZE]
  · norm_num [startupState, State.new, WINDOW_SIZE]
  · rw [abs_lt]; constructor <;> norm_num

/-- C3: `Projection::to_matrix` is the fixed clip-range conversion matrix
left-multiplied onto the perspective matrix built from the four fields, so
it depends on nothing but those fields; the conversion matrix is the
identity except that its third row is (0, 0, 0.5, 0.5), and consequently the
third row of the result is the perspective third row halved plus half the
fourth row (mapping depth [-1, 1] to [0, 1]) while every other row of the
perspective output is unchanged. -/
theorem C3_to_matrix_conversion_after_perspective (p : Projection) (j : Fin 4) :
    p.to_matrix =
      OPENGL_TO_WGPU_MATRIX *
        new_perspective (p.aspect : ℝ) (p.fovy : ℝ) (p.z_near : ℝ) (p.z_far : ℝ) ∧
    (∀ i : Fin 4, i ≠ 2 → OPENGL_TO_WGPU_MATRIX i j = (1 : Matrix4) i j) ∧
    OPENGL_TO_WGPU_MATRIX 2 j = ![(0 : ℝ), 0, 1/2, 1/2] j ∧
    p.to_matrix 2 j =
      new_perspective (p.aspect : ℝ) (p.fovy : ℝ) (p.z_near : ℝ) (p.z_far : ℝ) 2 j / 2 +
      new_perspective (p.aspect : ℝ) (p.fovy : ℝ) (p.z_near : ℝ) (p.z_far : ℝ) 3 j / 2 ∧
    p.to_matrix 0 j = new_perspective (p.aspect : ℝ) (p.fovy : ℝ) (p.z_near : ℝ) (p.z_far : ℝ) 0 j ∧
    p.to_matrix 1 j = new_perspective (p.aspect : ℝ) (p.fovy : ℝ) (p.z_near : ℝ) (p.z_far : ℝ) 1 j ∧
    p.to_matrix 3 j = new_perspective (p.aspect : ℝ) (p.fovy : ℝ) (p.z_near : ℝ) (p.z_far : ℝ) 3 j := by
  refine ⟨rfl, ?_, ?_, ?_, ?_, ?_, ?_⟩
  · intro i hi
    fin_cases i <;> fin_cases j <;>
      simp_all [OPENGL_TO_WGPU_MATRIX, Matrix.one_apply, Matrix.vecHead, Matrix.vecTail]
  · fin_cases j <;> norm_num [OPENGL_TO_WGPU_MATRIX, Matrix.vecHead, Matrix.vecTail]
  · simp [Projection.to_matrix, Matrix.mul_apply, Fin.sum_univ_four, OPENGL_TO_WGPU_MATRIX]
    ring
  · simp [Projection.to_matrix, Matrix.mul_apply, Fin.sum_univ_four, OPENGL_TO_WGPU_MATRIX]
  · simp [Projection.to_matrix, Matrix.mul_apply, Fin.sum_univ_four, OPENGL_TO_WGPU_MATRIX]
  · simp [Projection.to_matrix, Matrix.mul_apply, Fin.sum_univ_four, OPENGL_TO_WGPU_MATRIX]

/-- C4 (amended): when acquiring the next presentable surface image fails,
`State::redraw` panics on the `unwrap`, terminating the process; up to that
point no command buffer was created or submitted, nothing was presented, no
retry was attempted, and no field of `State` was modified (the preceding
`request_redraw` call has already happened). The original claim that the
process is not terminated is refuted by the counterexample theorem. -/
theorem C4_redraw_acquire_failure_panics (s : State) (e : SurfaceError) :
    s.redraw (Except.error e) =
      { requested_redraw := true
        panicked := true
        submitted := 0
        presented := false
        render_pass := none
        state := s } := rfl

/-- C4 counterexample: at the concrete startup state with an Outdated
surface, `redraw` panics — the process is terminated, contradicting the
claim that acquisition failure leaves the process running. -/
theorem C4_counterexample_acquire_failure_terminates :
    (startupState.redraw (Except.error SurfaceError.Outdated)).panicked = true := rfl

/-- C5: for every decoder and byte sequence, `Texture::from_bytes` fails
with the propagated decode error (the startup-fatal panic message) whenever
the decoder cannot decode the bytes — in particular it never returns any
texture, so no 0x0 texture — and on success the created image has exactly
the decoded dimensions, one mip level, and 8-bit RGBA sRGB format. -/
theorem C5_from_bytes_decode_contract (decode : List Nat → Option DecodedImage)
    (bytes : List Nat) :
    (decode bytes = none →
      Texture.from_bytes decode bytes = Except.error "Failed to load image from memory" ∧
      ∀ t : Texture, Texture.from_bytes decode bytes ≠ Except.ok t) ∧
    (∀ image : DecodedImage, decode bytes = some image →
      Texture.from_bytes decode bytes = Except.ok (Texture.from_image image) ∧
      (Texture.from_image image).size.width = image.width ∧
      (Texture.from_image image).size.height = image.height ∧
      (Texture.from_image image).mip_level_count = 1 ∧
      (Texture.from_image image).format = TextureFormat.Rgba8UnormSrgb) := by
  constructor
  · intro h
    refine ⟨by simp [Texture.from_bytes, h], ?_⟩
    intro t
    simp [Texture.from_bytes, h]
  · intro image h
    exact ⟨by simp [Texture.from_bytes, h], rfl, rfl, rfl, rfl⟩

/-- C6: the quad geometry is exactly 4 vertices and the 6 16-bit indices
[0, 1, 2, 0, 2, 3], each a valid reference into the vertex list; the
per-frame draw call covers the full index buffer with Uint16 indices; and
the two indexed triangles are both counter-clockwise and cover the quad
[-0.5, 0.5] x [-0.5, 0.5] with no gap and no overlap of their interiors. -/
theorem C6_quad_geometry_two_ccw_triangles :
    TextureVertex.RECT_VERTICES.length = 4 ∧
    TextureVertex.RECT_INDICES = [0, 1, 2, 0, 2, 3] ∧
    (∀ i ∈ TextureVertex.RECT_INDICES, i < TextureVertex.RECT_VERTICES.length) ∧
    (∀ i ∈ TextureVertex.RECT_INDICES, i < 2 ^ 16) ∧
    (∀ format pm am img, (State.new format pm am img).index_count =
      TextureVertex.RECT_INDICES.length ∧
      (State.new format pm am img).index_buffer = TextureVertex.RECT_INDICES ∧
      (State.new format pm am img).vertex_buffer = TextureVertex.RECT_VERTICES) ∧
    (∀ s : State, ((s.redraw (Except.ok ())).render_pass.map fun pr => pr.indexed_draw) =
      some (0, s.index_count)) ∧
    (∀ s : State, ((s.redraw (Except.ok ())).render_pass.map fun pr => pr.index_format) =
      some IndexFormat.Uint16) ∧
    0 < cross2 (triangleCorners 0).1 (triangleCorners 0).2.1 (triangleCorners 0).2.2 ∧
    0 < cross2 (triangleCorners 1).1 (triangleCorners 1).2.1 (triangleCorners 1).2.2 ∧
    (∀ p : ℚ × ℚ, inQuad p ↔
      (inTriangle (triangleCorners 0).1 (triangleCorners 0).2.1 (triangleCorners 0).2.2 p ∨
       inTriangle (triangleCorners 1).1 (triangleCorners 1).2.1 (triangleCorners 1).2.2 p)) ∧
    (∀ p : ℚ × ℚ,
      ¬ (inTriangleInterior (triangleCorners 0).1 (triangleCorners 0).2.1
            (triangleCorners 0).2.2 p ∧
         inTriangleInterior (triangleCorners 1).1 (triangleCorners 1).2.1
            (triangleCorners 1).2.2 p)) := by
  have h0 : triangleCorners 0 = ((1/2, 1/2), (-(1/2), 1/2), (-(1/2), -(1/2))) := by
    norm_num [triangleCorners, quadVertex, TextureVertex.RECT_INDICES,
      TextureVertex.RECT_VERTICES, TextureVertex.xy]
  have h1 : triangleCorners 1 = ((1/2, 1/2), (-(1/2), -(1/2)), (1/2, -(1/2))) := by
    norm_num [triangleCorners, quadVertex, TextureVertex.RECT_INDICES,
      TextureVertex.RECT_VERTICES, TextureVertex.xy]
  refine ⟨rfl, rfl, by decide, by decide, fun _ _ _ _ => ⟨rfl, rfl, rfl⟩,
    fun s => rfl, fun s => rfl, ?_, ?_, ?_, ?_⟩
  · rw [h0]; norm_num [cross2]
  · rw [h1]; norm_num [cross2]
  · intro p
    rw [h0, h1]
    simp only [inQuad, inTriangle, cross2]
    constructor
    · rintro ⟨ha, hb, hc, hd⟩
      rcases le_total p.1 p.2 with hle | hle
      · left; refine ⟨by nlinarith, by nlinarith, by nlinarith⟩
      · right; refine ⟨by nlinarith, by nlinarith, by nlinarith⟩
    · rintro (⟨ha, hb, hc⟩ | ⟨ha, hb, hc⟩) <;>
        refine ⟨by nlinarith, by nlinarith, by nlinarith, by nlinarith⟩
  · intro p
    rw [h0, h1]
    simp only [inTriangleInterior, cross2]
    rintro ⟨⟨ha, hb, hc⟩, ⟨hd, he, hf⟩⟩
    nlinarith

/-- C7: the render pipeline built at startup has exactly the frozen
fixed-function state: triangle-list topology, counter-clockwise front faces
with back-face culling, less-than depth comparison with depth writes
enabled, the default no-op stencil state with zero masks, sample count 1,
and opaque replace blending (no alpha blending, source replaces
destination) with all color channels written. -/
theorem C7_pipeline_fixed_function_state (format : TextureFormat)
    (pm : PresentMode) (am : CompositeAlphaMode) (img : DecodedImage) :
    (State.new format pm am img).pipeline = create_render_pipeline format ∧
    (create_render_pipeline format).primitive.topology = PrimitiveTopology.TriangleList ∧
    (create_render_pipeline format).primitive.front_face = FrontFace.Ccw ∧
    (create_render_pipeline format).primitive.cull_mode = some Face.Back ∧
    (create_render_pipeline format).depth_stencil =
      some { format := TextureFormat.Depth32Float
             depth_write_enabled := true
             depth_compare := CompareFunction.Less
             stencil := StencilState.defaultState
             bias := DepthBiasState.defaultState } ∧
    StencilState.defaultState =
      { front := StencilFaceState.IGNORE
        back := StencilFaceState.IGNORE
        read_mask := 0
        write_mask := 0 } ∧
    StencilFaceState.IGNORE =
      { compare := CompareFunction.Always
        fail_op := StencilOperation.Keep
        depth_fail_op := StencilOperation.Keep
        pass_op := StencilOperation.Keep } ∧
    (create_render_pipeline format).multisample.count = 1 ∧
    (create_render_pipeline format).fragment_targets =
      [some { format := format
              blend := some BlendState.REPLACE
              write_mask := ColorWrites.ALL }] ∧
    BlendState.REPLACE.color =
      { src_factor := BlendFactor.One
        dst_factor := BlendFactor.Zero
        operation := BlendOperation.Add } ∧
    BlendState.REPLACE.alpha = BlendState.REPLACE.color ∧
    ColorWrites.ALL = 15 :=
  ⟨rfl, rfl, rfl, rfl, rfl, rfl, rfl, rfl, rfl, rfl, rfl, rfl⟩

/-- C8: the startup constants of the code are window size 1280x720, fovy
constant 45.0, near plane 0.1, far plane 100.0, and the camera pose eye
(0, 1, 2), target the origin, up +Y — all as the claim lists them. However
the perspective-matrix builder (`na::Matrix4::new_perspective`) interprets
its fovy argument in radians: 45 degrees is pi / 4 radians, and 45 is not
pi / 4, so the field of view the builder realises is 45 radians, not the
45 degrees the claim and the spec state. -/
theorem C8_startup_constants_fovy_in_radians :
    WINDOW_SIZE = { width := 1280, height := 720 } ∧
    startupState.config.width = 1280 ∧
    startupState.config.height = 720 ∧
    startupState.projection.fovy = 45 ∧
    startupState.projection.z_near = 0.1 ∧
    startupState.projection.z_far = 100 ∧
    startupState.camera =
      { eye := { x := 0, y := 1, z := 2 }
        target := { x := 0, y := 0, z := 0 }
        up := { x := 0, y := 1, z := 0 } } ∧
    (45 : ℝ) * (Real.pi / 180) = Real.pi / 4 ∧
    (45 : ℝ) ≠ Real.pi / 4 := by
  refine ⟨rfl, rfl, rfl, ?_, ?_, ?_, rfl, by ring, ?_⟩
  · norm_num [startupState, State.new]
  · norm_num [startupState, State.new]
  · norm_num [startupState, State.new]
  · intro h
    have := Real.pi_lt_d2
    nlinarith

/-- C9: resize is idempotent — calling `State::resize` twice with the same
size yields the same state as calling it once; in particular the resulting
surface configuration and depth texture are identical. -/
theorem C9_resize_idempotent (s : State) (size : PhysicalSize) :
    (s.resize size).resize size = s.resize size ∧
    ((s.resize size).resize size).config = (s.resize size).config ∧
    ((s.resize size).resize size).depth_texture = (s.resize size).depth_texture :=
  ⟨rfl, rfl, rfl⟩

/-- C10: `State::resize` writes only the width and height of the surface
configuration; every other field of `State` — the other configuration
fields, the projection and the projection uniform buffer contents, the depth
texture, the pipeline, the camera, the texture bind group, and the
vertex/index buffers with their count — is unchanged. -/
theorem C10_resize_touches_only_config_dimensions (s : State) (size : PhysicalSize) :
    (s.resize size).config.width = size.width ∧
    (s.resize size).config.height = size.height ∧
    (s.resize size).config.usage = s.config.usage ∧
    (s.resize size).config.format = s.config.format ∧
    (s.resize size).config.present_mode = s.config.present_mode ∧
    (s.resize size).config.alpha_mode = s.config.alpha_mode ∧
    (s.resize size).config.desired_maximum_frame_latency =
      s.config.desired_maximum_frame_latency ∧
    (s.resize size).projection = s.projection ∧
    (s.resize size).projection_buffer = s.projection_buffer ∧
    (s.resize size).depth_texture = s.depth_texture ∧
    (s.resize size).pipeline = s.pipeline ∧
    (s.resize size).camera = s.camera ∧
    (s.resize size).vertex_buffer = s.vertex_buffer ∧
    (s.resize size).index_buffer = s.index_buffer ∧
    (s.resize size).index_count = s.index_count ∧
    (s.resize size).texture_bind_group = s.texture_bind_group :=
  ⟨rfl, rfl, rfl, rfl, rfl, rfl, rfl, rfl, rfl, rfl, rfl, rfl, rfl, rfl, rfl, rfl⟩

end Water
